import Mathlib

/-!
Verification of the browser-side API client and UI controller of the
RAG Q&A frontend (src/static/js/api.js and src/static/js/app.js).

JavaScript values exchanged with the backend are modelled by the `Json`
inductive; a JS object field that holds `null` is `Json.null`, and an
absent field (JS `undefined` on property access) is `Option.none`.
Host primitives (`fetch`, `response.json()`, `XMLHttpRequest`,
`TextDecoder`) are modelled by outcome types that enumerate every
terminal result the transport can produce; the client code itself is
translated line by line.
-/

namespace RagFrontend

/-- Model of a JavaScript/JSON value.  Numbers are modelled as integers
(no claim depends on fractional values). -/
inductive Json where
  | null
  | bool (b : Bool)
  | num (n : Int)
  | str (s : String)
  | arr (elems : List Json)
  | obj (fields : List (String × Json))

/-- Whether a JS value is `null`. -/
def Json.isNull : Json → Bool
  | .null => true
  | _ => false

/-- JavaScript truthiness of a value: `null`, `false`, `0` and `""` are
falsy; every array and object is truthy. -/
def truthy : Json → Bool
  | .null => false
  | .bool b => b
  | .num n => n ≠ 0
  | .str s => s ≠ ""
  | .arr _ => true
  | .obj _ => true

/-- JavaScript property access `j[k]` for the values that can reach it:
on an object the first binding of the key wins, on any other non-null
value the result is `undefined` (`none`).  Access on `Json.null` throws
in JS; callers model that branch explicitly and never call `getField`
on `Json.null`. -/
def getField (j : Json) (k : String) : Option Json :=
  match j with
  | .obj fields => (fields.find? (fun p => p.1 = k)).map Prod.snd
  | _ => none

/-- JavaScript `a || b` for two strings: the left operand unless it is
falsy (empty). -/
def jsOrStr (a b : String) : String :=
  if a = "" then b else a

/-- The chain `j.k1 || j.k2 || ... || fallback` used by the client to
extract an error message: the first field whose value is truthy,
otherwise the fallback. -/
def firstTruthyField (j : Json) : List String → Json → Json
  | [], fb => fb
  | k :: ks, fb =>
    match getField j k with
    | some v => if truthy v then v else firstTruthyField j ks fb
    | none => firstTruthyField j ks fb

/-- The result object `{ data, error }` every client method resolves
with.  Both fields hold JS values; "non-null" means the field is not
`Json.null`. -/
structure Result where
  data : Json
  error : Json

/-- Exactly one of the two fields of a `Result` is non-null. -/
def exactlyOneNonNull (r : Result) : Bool :=
  (!r.data.isNull) ^^ (!r.error.isNull)

/-! ### The `request` method (api.js lines 16-57) -/

/-- A completed `fetch` response as `request` observes it.
`body` is what `response.text()` yields; `json` is what
`response.json()` yields (`Except.error m` models the parse rejecting
with an exception whose `.message` is `m`). -/
structure FetchResponse where
  status : Nat
  statusText : String
  contentType : Option String
  body : String
  json : Except String Json

/-- Model of `response.ok`: status in the range 200-299. -/
def FetchResponse.ok (r : FetchResponse) : Bool :=
  200 ≤ r.status && r.status < 300

/-- Every terminal outcome of the `fetch` call inside `request`:
either the promise rejects (network failure, message `m`) or a
response arrives. -/
inductive FetchOutcome where
  | failure (message : String)
  | success (r : FetchResponse)

/-- The fallback error string "HTTP status: statusText" built by the
template literal in api.js. -/
def httpFallback (status : Nat) (statusText : String) : String :=
  "HTTP " ++ toString status ++ ": " ++ statusText

/-- The fallback message of the `catch` block of `request`. -/
def networkErrorMessage : String :=
  "Network error. Please check your connection."

/-- Message of the TypeError thrown when the non-2xx JSON branch reads
`data.error` while `data` is `null`; it is caught by the `catch` block
of `request`, which returns `error.message`.  The exact wording is
host-dependent; only its non-emptiness matters. -/
def nullReadMessage : String :=
  "Cannot read properties of null"

/-- The branch of `request` taken when the content-type header is
present and does not include "application/json" (api.js lines 28-37):
return the raw text, as the error on a non-2xx status. -/
def requestTextPath (r : FetchResponse) : Result :=
  if !r.ok then
    { data := Json.null, error := Json.str (jsOrStr r.body (httpFallback r.status r.statusText)) }
  else
    { data := Json.str r.body, error := Json.null }

/-- The branch of `request` taken otherwise (api.js lines 39-48):
parse the body as JSON; on a non-2xx status extract
`data.error || data.message || data.detail ||` the HTTP fallback.
A JSON parse failure, and the property access throwing on a `null`
body, fall through to the `catch` block (lines 50-56). -/
def requestJsonPath (r : FetchResponse) : Result :=
  match r.json with
  | .error m =>
    { data := Json.null, error := Json.str (jsOrStr m networkErrorMessage) }
  | .ok j =>
    if !r.ok then
      if j.isNull then
        { data := Json.null, error := Json.str nullReadMessage }
      else
        { data := Json.null
          error := firstTruthyField j ["error", "message", "detail"]
            (Json.str (httpFallback r.status r.statusText)) }
    else
      { data := j, error := Json.null }

/-- Whether the character list `ns` is a prefix of `hs`. -/
def charsStartWith : List Char → List Char → Bool
  | _, [] => true
  | [], _ :: _ => false
  | h :: hs, n :: ns => (h == n) && charsStartWith hs ns

/-- Whether the character list `ns` occurs inside `hs` (model of
JavaScript `String.prototype.includes`). -/
def charsInclude : List Char → List Char → Bool
  | [], ns => charsStartWith [] ns
  | h :: t, ns => charsStartWith (h :: t) ns || charsInclude t ns

/-- Model of `hay.includes(needle)` on strings. -/
def strIncludes (hay needle : String) : Bool :=
  charsInclude hay.toList needle.toList

/-- Whether `request` takes the text path: the header is present and
does not include "application/json" (api.js line 28). -/
def takesTextPath (r : FetchResponse) : Bool :=
  match r.contentType with
  | some ct => !strIncludes ct "application/json"
  | none => false

/-- The method `request(endpoint, options)` (api.js lines 16-57), as a function of
the transport outcome. -/
def request (o : FetchOutcome) : Result :=
  match o with
  | .failure m =>
    { data := Json.null, error := Json.str (jsOrStr m networkErrorMessage) }
  | .success r =>
    if takesTextPath r then requestTextPath r else requestJsonPath r

/-! ### Thin wrappers over `request` (api.js lines 116-241).
Each forwards its arguments into fetch options and returns
`this.request(...)` unchanged, so as a function of the transport
outcome each is `request` itself. -/

/-- Wrapper `getCollectionInfo()` (api.js lines 116-120). -/
def getCollectionInfo (o : FetchOutcome) : Result := request o

/-- Wrapper `deleteCollection()` (api.js lines 126-130). -/
def deleteCollection (o : FetchOutcome) : Result := request o

/-- Wrapper `query(question, includeSources, enableEvaluation)` (api.js lines 139-151). -/
def query (o : FetchOutcome) : Result := request o

/-- Wrapper `searchDocuments(question)` (api.js lines 213-221). -/
def searchDocuments (o : FetchOutcome) : Result := request o

/-- Wrapper `healthCheck()` (api.js lines 227-231). -/
def healthCheck (o : FetchOutcome) : Result := request o

/-- Wrapper `readinessCheck()` (api.js lines 237-241). -/
def readinessCheck (o : FetchOutcome) : Result := request o

/-! ### The `queryStream` method (api.js lines 159-206) -/

/-- What the reader of the streamed response body delivers: the decoded
text chunks in arrival order, and whether the stream ended normally
(`done`) or a `read()`/decode step threw an exception with message `m`
after the listed chunks (`interrupted`). -/
inductive StreamBody where
  | complete (chunks : List String)
  | interrupted (chunks : List String) (message : String)

/-- The streaming response as `queryStream` observes it: status line,
the text of the body (read only on the non-2xx branch), and the chunk
sequence (read only on the 2xx branch). -/
structure StreamResponse where
  status : Nat
  statusText : String
  bodyText : String
  body : StreamBody

/-- Model of `response.ok` for the streaming response. -/
def StreamResponse.ok (r : StreamResponse) : Bool :=
  200 ≤ r.status && r.status < 300

/-- Terminal outcome of the `fetch` inside `queryStream`. -/
inductive StreamOutcome where
  | failure (message : String)
  | response (r : StreamResponse)

/-- The fallback message of the `catch` block of `queryStream`. -/
def streamingErrorMessage : String :=
  "Streaming failed. Please try again."

/-- The `while (true)` read loop of `queryStream` (api.js lines
185-195): starting from accumulator `acc`, for each chunk append it to
`fullText` and invoke `onChunk` with it.  Returns the final `fullText`
together with the arguments passed to `onChunk`, in call order. -/
def streamLoop : List String → String → String × List String
  | [], acc => (acc, [])
  | c :: cs, acc =>
    let rest := streamLoop cs (acc ++ c)
    (rest.1, c :: rest.2)

/-- The method `queryStream(question, onChunk)` (api.js lines 159-206),
as a function of the transport outcome.  The second component of the
returned pair lists the strings passed to the `onChunk` callback, in
order. -/
def queryStream (o : StreamOutcome) : Result × List String :=
  match o with
  | .failure m =>
    ({ data := Json.null, error := Json.str (jsOrStr m streamingErrorMessage) }, [])
  | .response r =>
    if !r.ok then
      ({ data := Json.null
         error := Json.str (jsOrStr r.bodyText (httpFallback r.status r.statusText)) }, [])
    else
      match r.body with
      | .complete chunks =>
        let loop := streamLoop chunks ""
        ({ data := Json.str loop.1, error := Json.null }, loop.2)
      | .interrupted chunks m =>
        let loop := streamLoop chunks ""
        ({ data := Json.null, error := Json.str (jsOrStr m streamingErrorMessage) }, loop.2)

/-! ### The `uploadDocument` method (api.js lines 65-110) -/

/-- Terminal outcome of the `XMLHttpRequest` inside `uploadDocument`:
exactly one of the `load`, `error`, `abort` events fires.  For `load`,
`parsed` is the outcome of `JSON.parse(xhr.responseText)` (`none` when
the parse throws). -/
inductive UploadOutcome where
  | load (status : Nat) (parsed : Option Json)
  | netError
  | abort

/-- The method `uploadDocument(file, onProgress)` (api.js lines 65-110),
as a function of the transport outcome.  The `try` block of the `load`
handler covers both the parse and the error-field accesses, so a body
that parses to `null` on a non-2xx status also resolves with the parse
failure message (reading `.error` on `null` throws inside the `try`). -/
def uploadDocument (o : UploadOutcome) : Result :=
  match o with
  | .load status parsed =>
    match parsed with
    | none => { data := Json.null, error := Json.str "Failed to parse server response" }
    | some j =>
      if 200 ≤ status && status < 300 then
        { data := j, error := Json.null }
      else if j.isNull then
        { data := Json.null, error := Json.str "Failed to parse server response" }
      else
        { data := Json.null
          error := firstTruthyField j ["error", "message", "detail"]
            (Json.str ("Upload failed with status " ++ toString status)) }
  | .netError => { data := Json.null, error := Json.str "Network error during upload" }
  | .abort => { data := Json.null, error := Json.str "Upload cancelled" }

/-! ### UI controller (app.js) -/

/-- JavaScript truthiness of a property access that may be `undefined`
(`undefined` is falsy). -/
def truthyOpt : Option Json → Bool
  | some v => truthy v
  | none => false

/-- The strict comparison `data.status === 'ready'` of app.js line 492:
true exactly when the field is present and is the string "ready". -/
def statusIsReady (d : Json) : Bool :=
  match getField d "status" with
  | some (.str s) => s = "ready"
  | _ => false

/-- The navbar health indicator: the CSS class on the status dot and
the displayed label (app.js lines 478-500). -/
structure HealthIndicator where
  dotClass : String
  label : String

/-- The `isHealthy` condition of app.js line 492:
`data.status === 'ready' && data.qdrant_connected`. -/
def isHealthyData (d : Json) : Bool :=
  statusIsReady d && truthyOpt (getField d "qdrant_connected")

/-- The function `updateHealthIndicator` (app.js lines 474-501), as a
function of the `Result` that `readinessCheck` resolved with: the
indicator finally rendered.  `none` models the handler throwing before
rendering (the `else` branch reads `data.status`, which throws when
`data` is `null`), leaving the transient "Checking..." state in place. -/
def updateHealthIndicator (res : Result) : Option HealthIndicator :=
  if truthy res.error then
    some { dotClass := "unhealthy", label := "Unhealthy" }
  else if res.data.isNull then
    none
  else
    let isHealthy := isHealthyData res.data
    some { dotClass := if isHealthy then "healthy" else "unhealthy"
           label := if isHealthy then "Healthy" else "Degraded" }

/-- The two CSS classes the character-counter handler toggles
(app.js lines 166-182); any other class on the element is untouched. -/
structure CharCounterClasses where
  warning : Bool
  danger : Bool

/-- The input-event handler on the question field (app.js lines
166-182), acting on the counter's class list for an input of length
`length`: add `warning` when `length > 900` else remove it; then, when
`length > 950`, add `danger` and remove `warning`, else remove
`danger`. -/
def charCounterUpdate (prev : CharCounterClasses) (length : Nat) : CharCounterClasses :=
  let c1 := if length > 900 then { prev with warning := true }
            else { prev with warning := false }
  if length > 950 then { c1 with danger := true, warning := false }
  else { c1 with danger := false }

/-- The whitespace set of JavaScript `String.prototype.trim`:
WhiteSpace (tab, vertical tab, form feed, space, no-break space, BOM,
the Unicode space separators) and LineTerminator (LF, CR, LS, PS) code
points. -/
def jsWhitespaceCodes : List Nat :=
  [0x9, 0xA, 0xB, 0xC, 0xD, 0x20, 0xA0, 0x1680,
   0x2000, 0x2001, 0x2002, 0x2003, 0x2004, 0x2005, 0x2006,
   0x2007, 0x2008, 0x2009, 0x200A, 0x2028, 0x2029, 0x202F,
   0x205F, 0x3000, 0xFEFF]

/-- Whether a character is JS whitespace. -/
def isJsWhitespace (c : Char) : Bool :=
  jsWhitespaceCodes.contains c.toNat

/-- Model of `value.trim()`: remove leading and trailing JS whitespace. -/
def jsTrim (s : String) : String :=
  String.mk (((s.toList.dropWhile isJsWhitespace).reverse.dropWhile isJsWhitespace).reverse)

/-- Modelled from the spec: `validateQuestion` is defined in a utility
script of this repository that is not present under src/static/js (only
its caller `handleQuerySubmit` is).  The spec says the query flow
"validates non-empty question within the 1000-character bound", so the
question is valid when it is non-empty and at most 1000 characters. -/
def validateQuestion (q : String) : Bool :=
  q ≠ "" && q.length ≤ 1000

/-- What `handleQuerySubmit` does after reading the form: reject with a
toast, or call the standard or the streaming path with a question
string. -/
inductive QueryDispatch where
  | rejected
  | standard (question : String) (includeSources enableEvaluation : Bool)
  | streaming (question : String)

/-- The function `handleQuerySubmit` (app.js lines 204-239), as a
function of the textarea value and the three checkbox states: the
question is the trimmed value; when validation fails the submission is
rejected, otherwise the question is passed to `handleStreamingQuery`
(which calls `queryStream`) or `handleStandardQuery` (which calls
`query`). -/
def handleQuerySubmit (value : String)
    (includeSources enableEvaluation useStreaming : Bool) : QueryDispatch :=
  let question := jsTrim value
  if !validateQuestion question then
    .rejected
  else if useStreaming then
    .streaming question
  else
    .standard question includeSources enableEvaluation

/-! ### Auxiliary definitions used by the statements below -/

/-- Concatenation of a list of strings, in order (the repeated
`fullText += chunk` of the read loop, starting from `''`). -/
def concatStrings (l : List String) : String :=
  l.foldl (fun r s => r ++ s) ""

/-- The transport outcomes on which `request` resolves with both fields
null: a 2xx response routed to the JSON path whose body parses to JSON
`null`. -/
def requestBothNullCase : FetchOutcome → Bool
  | .success r =>
    !takesTextPath r && r.ok &&
      (match r.json with
       | .ok j => j.isNull
       | .error _ => false)
  | .failure _ => false

/-- The transport outcomes on which `uploadDocument` resolves with both
fields null: a 2xx load whose body parses to JSON `null`. -/
def uploadBothNullCase : UploadOutcome → Bool
  | .load status (some j) => (200 ≤ status && status < 300) && j.isNull
  | _ => false

/-- The error extraction as the spec words it, for comparison with the
source's `firstTruthyField`: the value of the first field that is
PRESENT on the body (whatever its value), otherwise the fallback. -/
def firstPresentField (j : Json) : List String → Json → Json
  | [], fb => fb
  | k :: ks, fb =>
    match getField j k with
    | some v => v
    | none => firstPresentField j ks fb

/-! ### Concrete transport outcomes used in the statements below -/

/-- A 2xx JSON response whose body is the five-character text "null",
which `response.json()` parses to JSON `null`. -/
def jsonNullOkResponse : FetchResponse :=
  { status := 200
    statusText := "OK"
    contentType := some "application/json"
    body := "null"
    json := .ok Json.null }

/-- A 400 JSON response whose body carries an `error` field holding the
empty string (present but falsy) next to a `message` field. -/
def falsyErrorFieldResponse : FetchResponse :=
  { status := 400
    statusText := "Bad Request"
    contentType := some "application/json"
    body := "\x7b\x7d"
    json := .ok (Json.obj [("error", Json.str ""), ("message", Json.str "M")]) }

/-- A 404 JSON response whose body carries a non-empty `error` field. -/
def plainErrorFieldResponse : FetchResponse :=
  { status := 404
    statusText := "Not Found"
    contentType := some "application/json"
    body := "x"
    json := .ok (Json.obj [("error", Json.str "X")]) }

/-- A 2xx response without a content-type header whose body is not
valid JSON. -/
def noContentTypeResponse : FetchResponse :=
  { status := 200
    statusText := "OK"
    contentType := none
    body := "hello"
    json := .error "Unexpected token" }

/-- A 2xx streaming response delivering two chunks and ending normally. -/
def twoChunkStreamResponse : StreamResponse :=
  { status := 200
    statusText := "OK"
    bodyText := ""
    body := .complete ["He", "llo"] }

/-- A 500 streaming response whose body text is empty. -/
def emptyBodyErrorStreamResponse : StreamResponse :=
  { status := 500
    statusText := "Internal Server Error"
    bodyText := ""
    body := .complete [] }

/-- A 404 streaming response with a non-empty body text. -/
def notFoundStreamResponse : StreamResponse :=
  { status := 404
    statusText := "Not Found"
    bodyText := "missing"
    body := .complete [] }

/-- A readiness result whose data reports `status: "ready"` and
`qdrant_connected: true`. -/
def readyResult : Result :=
  { data := Json.obj [("status", Json.str "ready"), ("qdrant_connected", Json.bool true)]
    error := Json.null }

/-! ### Helper lemmas -/

@[simp] theorem isNull_null : Json.isNull Json.null = true := rfl

@[simp] theorem isNull_bool (b : Bool) : (Json.bool b).isNull = false := rfl

@[simp] theorem isNull_num (n : Int) : (Json.num n).isNull = false := rfl

@[simp] theorem isNull_str (s : String) : (Json.str s).isNull = false := rfl

@[simp] theorem isNull_arr (l : List Json) : (Json.arr l).isNull = false := rfl

@[simp] theorem isNull_obj (f : List (String × Json)) : (Json.obj f).isNull = false := rfl

theorem truthy_isNull_false {v : Json} (h : truthy v = true) : v.isNull = false := by
  cases v <;> simp_all [truthy, Json.isNull]

theorem firstTruthyField_str_isNull (j : Json) (ks : List String) (s : String) :
    (firstTruthyField j ks (Json.str s)).isNull = false := by
  induction ks with
  | nil => rfl
  | cons k ks ih =>
    simp only [firstTruthyField]
    cases h : getField j k with
    | none => exact ih
    | some v =>
      by_cases ht : truthy v
      · simp [ht, truthy_isNull_false ht]
      · simp [ht, ih]

theorem append_left_ne_empty (a b : String) (ha : a ≠ "") : a ++ b ≠ "" := by
  intro h
  apply ha
  have hd : (a ++ b).data = a.data ++ b.data := String.data_append a b
  rw [h] at hd
  have : a.data = [] := (List.append_eq_nil.mp hd.symm).1
  cases a
  simp_all

theorem firstTruthyField_truthy (j : Json) (ks : List String) (s : String) (hs : s ≠ "") :
    truthy (firstTruthyField j ks (Json.str s)) = true := by
  induction ks with
  | nil => simp [firstTruthyField, truthy, hs]
  | cons k ks ih =>
    simp only [firstTruthyField]
    cases h : getField j k with
    | none => exact ih
    | some v =>
      by_cases ht : truthy v
      · simp [ht]
      · simp [ht, ih]

theorem foldl_append_shift (cs : List String) (a : String) :
    cs.foldl (fun r s => r ++ s) a = a ++ concatStrings cs := by
  induction cs generalizing a with
  | nil => simp [concatStrings]
  | cons c cs ih =>
    simp only [concatStrings, List.foldl_cons]
    rw [ih (a ++ c), ih ("" ++ c), String.empty_append, String.append_assoc]

theorem concatStrings_cons (c : String) (cs : List String) :
    concatStrings (c :: cs) = c ++ concatStrings cs := by
  simp only [concatStrings, List.foldl_cons]
  rw [foldl_append_shift, String.empty_append, concatStrings]

theorem streamLoop_spec (cs : List String) (acc : String) :
    streamLoop cs acc = (acc ++ concatStrings cs, cs) := by
  induction cs generalizing acc with
  | nil => simp [streamLoop, concatStrings]
  | cons c cs ih =>
    simp only [streamLoop]
    rw [ih (acc ++ c), concatStrings_cons, String.append_assoc]

/-! ### Claim C1 -/

/-- C1 (counterexample): a 2xx response on the JSON path whose body is
the JSON text "null" makes `request` return `{ data: null, error: null }`,
so both fields are null and the claimed mutual exclusivity fails. -/
theorem c1_request_both_null_counterexample :
    request (.success jsonNullOkResponse) = { data := Json.null, error := Json.null }
    ∧ exactlyOneNonNull (request (.success jsonNullOkResponse)) = false := by
  exact ⟨rfl, rfl⟩

/-- C1 (amended): for every API Client method and every transport
outcome, the returned Result has exactly one of `data`/`error` non-null,
EXCEPT that a 2xx response whose JSON body parses to `null` makes
`request` (and every wrapper delegating to it), and likewise a 2xx
upload body parsing to `null` makes `uploadDocument`, resolve with both
fields null; `queryStream` always has exactly one non-null. -/
theorem c1_results_mutually_exclusive_except_null_body :
    (∀ o : FetchOutcome, exactlyOneNonNull (request o) = !requestBothNullCase o)
    ∧ (∀ o : UploadOutcome, exactlyOneNonNull (uploadDocument o) = !uploadBothNullCase o)
    ∧ (∀ o : StreamOutcome, exactlyOneNonNull (queryStream o).1 = true)
    ∧ (∀ o : FetchOutcome,
        getCollectionInfo o = request o ∧ deleteCollection o = request o
        ∧ query o = request o ∧ searchDocuments o = request o
        ∧ healthCheck o = request o ∧ readinessCheck o = request o) := by
  refine ⟨?_, ?_, ?_, fun o => ⟨rfl, rfl, rfl, rfl, rfl, rfl⟩⟩
  · intro o
    match o with
    | .failure m => rfl
    | .success r =>
      simp only [request, requestBothNullCase]
      by_cases htp : takesTextPath r
      · simp only [htp, if_true, Bool.not_true, Bool.false_and, Bool.not_false]
        simp only [requestTextPath]
        by_cases hok : r.ok <;>
          simp [hok, exactlyOneNonNull]
      · simp only [htp, if_false, Bool.not_false, Bool.true_and]
        simp only [requestJsonPath]
        match hj : r.json with
        | .error m => simp [exactlyOneNonNull]
        | .ok j =>
          by_cases hok : r.ok
          · simp only [hok, Bool.not_true, if_false, Bool.true_and]
            cases j <;> simp [exactlyOneNonNull]
          · simp only [hok, Bool.not_false, if_true, Bool.false_and, Bool.not_false]
            cases j <;>
              simp [exactlyOneNonNull, firstTruthyField_str_isNull]
  · intro o
    match o with
    | .load status parsed =>
      simp only [uploadDocument, uploadBothNullCase]
      match parsed with
      | none => simp [exactlyOneNonNull]
      | some j =>
        by_cases h2 : 200 ≤ status && status < 300
        · simp only [h2, if_true, Bool.true_and]
          cases j <;> simp [exactlyOneNonNull]
        · simp only [h2, Bool.false_and, Bool.not_false, if_false]
          cases j <;>
            simp [exactlyOneNonNull, firstTruthyField_str_isNull]
    | .netError => rfl
    | .abort => rfl
  · intro o
    match o with
    | .failure m => rfl
    | .response r =>
      simp only [queryStream]
      by_cases hok : r.ok
      · simp only [hok, Bool.not_true, if_false]
        match r.body with
        | .complete chunks => simp [exactlyOneNonNull]
        | .interrupted chunks m => simp [exactlyOneNonNull]
      · simp [hok, exactlyOneNonNull]

/-! ### Claim C2 -/

/-- C2 (counterexample): a 400 JSON response whose body is
`\x7b"error": "", "message": "M"\x7d` has the `error` field present, yet the
returned error is the `message` value "M" and not the present `error`
value "": the code skips falsy (not merely absent) fields, refuting the
claim's "first present" rule at this input. -/
theorem c2_falsy_error_field_counterexample :
    (request (.success falsyErrorFieldResponse)).error = Json.str "M"
    ∧ firstPresentField (Json.obj [("error", Json.str ""), ("message", Json.str "M")])
        ["error", "message", "detail"] (Json.str (httpFallback 400 "Bad Request"))
      = Json.str ""
    ∧ Json.str "M" ≠ Json.str "" := by
  refine ⟨rfl, rfl, ?_⟩
  intro h
  injection h with h2
  exact absurd h2 (by decide)

/-- C2 (amended): for every non-2xx JSON-path response, the returned
error is the value of the first of the body fields `error`, `message`,
`detail` that is present AND truthy (a falsy value such as the empty
string is skipped like an absent field), otherwise the string
"HTTP <status>: <statusText>"; when the parsed body is JSON `null` the
field access itself throws and the caught exception message is returned
instead.  In particular a body `\x7b"error": "X"\x7d` with `X` non-empty
yields error `X`. -/
theorem c2_nonok_json_error_extraction :
    ∀ (r : FetchResponse) (j : Json),
      takesTextPath r = false → r.ok = false → r.json = .ok j →
      ((request (.success r)).data = Json.null
        ∧ (request (.success r)).error
            = (if j.isNull then Json.str nullReadMessage
               else firstTruthyField j ["error", "message", "detail"]
                 (Json.str (httpFallback r.status r.statusText))))
      ∧ (∀ s : String, s ≠ "" → j = Json.obj [("error", Json.str s)] →
          (request (.success r)).error = Json.str s) := by
  intro r j htp hok hj
  have hreq : request (.success r) = requestJsonPath r := by simp [request, htp]
  constructor
  · rw [hreq]
    simp only [requestJsonPath, hj, hok]
    by_cases hn : j.isNull <;> simp [hn]
  · intro s hs hjs
    rw [hreq]
    subst hjs
    simp only [requestJsonPath, hj, hok]
    simp [firstTruthyField, getField, truthy, hs, List.find?]

/-- C2 (witness for the amended theorem): a 404 JSON body
`\x7b"error": "X"\x7d` yields error "X". -/
theorem c2_nonok_json_error_extraction_witness :
    (request (.success plainErrorFieldResponse)).error = Json.str "X" := by
  exact (c2_nonok_json_error_extraction plainErrorFieldResponse
    (Json.obj [("error", Json.str "X")]) rfl rfl rfl).2 "X" (by decide) rfl

/-! ### Claim C3 -/

/-- C3: for every successful `queryStream` call (2xx response, stream
read to completion) the concatenation, in order, of the strings passed
to `onChunk` equals the `data` string of the returned Result (and the
strings passed are exactly the decoded chunks). -/
theorem c3_queryStream_chunk_concat_eq_data :
    ∀ (r : StreamResponse) (chunks : List String),
      r.ok = true → r.body = .complete chunks →
      (queryStream (.response r)).1.data
          = Json.str (concatStrings (queryStream (.response r)).2)
      ∧ (queryStream (.response r)).1.error = Json.null
      ∧ (queryStream (.response r)).2 = chunks := by
  intro r chunks hok hb
  simp only [queryStream, hok, Bool.not_true, if_false, hb]
  rw [streamLoop_spec]
  simp

/-- C3 (witness): streaming the chunks "He", "llo" returns data
"Hello" with exactly those two callback invocations. -/
theorem c3_queryStream_chunk_concat_eq_data_witness :
    (queryStream (.response twoChunkStreamResponse)).1.data = Json.str "Hello"
    ∧ (queryStream (.response twoChunkStreamResponse)).2 = ["He", "llo"] := by
  have h := c3_queryStream_chunk_concat_eq_data twoChunkStreamResponse ["He", "llo"] rfl rfl
  refine ⟨?_, h.2.2⟩
  rw [h.1, h.2.2]
  rfl

/-! ### Claim C4 -/

/-- C4 (counterexample): a 500 response with an EMPTY body text makes
`queryStream` return the fallback "HTTP 500: Internal Server Error",
not the response body text (the empty string), refuting the claim's
"error is the response body text" at this input. -/
theorem c4_empty_error_body_counterexample :
    (queryStream (.response emptyBodyErrorStreamResponse)).1.error
      = Json.str "HTTP 500: Internal Server Error"
    ∧ emptyBodyErrorStreamResponse.bodyText = ""
    ∧ Json.str "HTTP 500: Internal Server Error" ≠ Json.str "" := by
  refine ⟨rfl, rfl, ?_⟩
  intro h
  injection h with h2
  exact absurd h2 (by decide)

/-- C4 (amended): for every `queryStream` call whose initial response
has a non-2xx status, the method returns the response body text as the
error when that text is non-empty, and "HTTP <status>: <statusText>"
when it is empty; the chunk loop is not entered, so `onChunk` is never
invoked. -/
theorem c4_nonok_short_circuit :
    ∀ (r : StreamResponse), r.ok = false →
      queryStream (.response r)
        = ({ data := Json.null
             error := Json.str (jsOrStr r.bodyText (httpFallback r.status r.statusText)) }, []) := by
  intro r hok
  simp [queryStream, hok]

/-- C4 (witness for the amended theorem): a 404 with body text
"missing" returns error "missing" and no callback invocation. -/
theorem c4_nonok_short_circuit_witness :
    queryStream (.response notFoundStreamResponse)
      = ({ data := Json.null, error := Json.str "missing" }, []) := by
  have h := c4_nonok_short_circuit notFoundStreamResponse rfl
  rw [h]
  rfl

/-! ### Claim C5 -/

/-- C5: `uploadDocument` is a total function of the terminal transport
outcome (load with any status, network error, or abort) — it always
resolves with a Result, never rejecting — and whenever the resolved
Result carries a non-null error, its data is null and the error is a
truthy (non-empty) message. -/
theorem c5_uploadDocument_error_shape :
    ∀ (o : UploadOutcome),
      (uploadDocument o).error ≠ Json.null →
        (uploadDocument o).data = Json.null ∧ truthy (uploadDocument o).error = true := by
  intro o h
  match o with
  | .netError => exact ⟨rfl, rfl⟩
  | .abort => exact ⟨rfl, rfl⟩
  | .load status parsed =>
    match parsed with
    | none => exact ⟨rfl, rfl⟩
    | some j =>
      simp only [uploadDocument] at h ⊢
      by_cases h2 : 200 ≤ status && status < 300
      · simp [h2] at h
      · simp only [h2, if_false] at h ⊢
        cases j <;>
          first
          | exact ⟨rfl, rfl⟩
          | exact ⟨rfl,
              firstTruthyField_truthy _ _ _ (append_left_ne_empty _ _ (by decide))⟩

/-- C5 (witness): the network-error outcome resolves with null data
and a truthy error message. -/
theorem c5_uploadDocument_error_shape_witness :
    (uploadDocument .netError).data = Json.null
    ∧ truthy (uploadDocument .netError).error = true := by
  exact c5_uploadDocument_error_shape .netError (fun h => Json.noConfusion h)

/-! ### Claim C6 -/

/-- C6: a completed readiness poll sets the navbar indicator to the
Unhealthy state when the call returned an error; on success (non-null
data) to the Healthy state exactly when `status === "ready"` and
`qdrant_connected` is truthy, and to the Degraded state otherwise; for
a boolean `qdrant_connected` field the truthiness condition coincides
with the field being `true`. -/
theorem c6_health_indicator_states :
    ∀ (res : Result),
      (truthy res.error = true →
        updateHealthIndicator res = some { dotClass := "unhealthy", label := "Unhealthy" })
      ∧ (res.error = Json.null → res.data.isNull = false →
          updateHealthIndicator res
            = some (if isHealthyData res.data
                    then { dotClass := "healthy", label := "Healthy" }
                    else { dotClass := "unhealthy", label := "Degraded" }))
      ∧ (∀ b : Bool, getField res.data "qdrant_connected" = some (Json.bool b) →
          isHealthyData res.data = (statusIsReady res.data && b)) := by
  intro res
  refine ⟨?_, ?_, ?_⟩
  · intro h
    simp [updateHealthIndicator, h]
  · intro he hd
    simp only [updateHealthIndicator, he]
    simp only [truthy, if_false]
    simp only [hd, Bool.false_eq_true, if_false]
    by_cases hh : isHealthyData res.data <;> simp [hh]
  · intro b hb
    simp [isHealthyData, truthyOpt, hb, truthy]

/-- C6 (witness): a readiness success reporting status "ready" and
qdrant connected renders the healthy indicator. -/
theorem c6_health_indicator_states_witness :
    updateHealthIndicator readyResult
      = some { dotClass := "healthy", label := "Healthy" } := by
  have h := (c6_health_indicator_states readyResult).2.1 rfl rfl
  rw [h]
  rfl

/-! ### Claim C7 -/

/-- C7: after an input event with length L, the counter carries the
warning class iff 900 < L ≤ 950, the danger class iff L > 950, and
neither iff L ≤ 900 — for every prior class state. -/
theorem c7_char_counter_classes :
    ∀ (prev : CharCounterClasses) (L : Nat),
      (charCounterUpdate prev L).warning = (decide (900 < L) && decide (L ≤ 950))
      ∧ (charCounterUpdate prev L).danger = decide (950 < L)
      ∧ (!(charCounterUpdate prev L).warning && !(charCounterUpdate prev L).danger)
          = decide (L ≤ 900) := by
  intro prev L
  simp only [charCounterUpdate]
  by_cases h9 : L > 900 <;> by_cases h95 : L > 950 <;>
    simp [h9, h95] <;> omega

/-! ### Claim C8 -/

/-- C8: a response with no content-type header takes the JSON parsing
path, so a 2xx response without the header whose body does not parse as
JSON yields an error Result, never the body text as data. -/
theorem c8_missing_content_type_json_path :
    ∀ (r : FetchResponse),
      r.contentType = none →
      request (.success r) = requestJsonPath r
      ∧ (∀ m : String, r.json = .error m →
          (request (.success r)).data = Json.null
          ∧ (request (.success r)).error = Json.str (jsOrStr m networkErrorMessage)
          ∧ (request (.success r)).data ≠ Json.str r.body) := by
  intro r hct
  have htp : takesTextPath r = false := by simp [takesTextPath, hct]
  have hreq : request (.success r) = requestJsonPath r := by simp [request, htp]
  refine ⟨hreq, ?_⟩
  intro m hm
  have hv : request (.success r)
      = { data := Json.null, error := Json.str (jsOrStr m networkErrorMessage) } := by
    rw [hreq]
    simp [requestJsonPath, hm]
  rw [hv]
  exact ⟨rfl, rfl, fun h => Json.noConfusion h⟩

/-- C8 (witness): a 2xx response with no content-type header and the
non-JSON body "hello" yields an error Result, not data "hello". -/
theorem c8_missing_content_type_json_path_witness :
    request (.success noContentTypeResponse) = requestJsonPath noContentTypeResponse
    ∧ (request (.success noContentTypeResponse)).data = Json.null
    ∧ (request (.success noContentTypeResponse)).error = Json.str "Unexpected token" := by
  have h := c8_missing_content_type_json_path noContentTypeResponse rfl
  have h2 := h.2 "Unexpected token" rfl
  refine ⟨h.1, h2.1, ?_⟩
  rw [h2.2.1]
  rfl

/-! ### Claim C9 -/

/-- C9: a completed upload whose response body is not valid JSON
resolves with data null and error "Failed to parse server response",
for every HTTP status — 2xx included. -/
theorem c9_upload_parse_failure :
    ∀ (status : Nat),
      uploadDocument (.load status none)
        = { data := Json.null, error := Json.str "Failed to parse server response" } := by
  intro status
  rfl

/-! ### Claim C10 -/

/-- C10: the question that `handleQuerySubmit` validates and then
dispatches to the standard or streaming path is the textarea value with
leading and trailing JS whitespace removed; a value consisting only of
whitespace trims to the empty string and is rejected as an empty
question. -/
theorem c10_submit_trims_question :
    ∀ (value : String) (includeSources enableEvaluation useStreaming : Bool),
      handleQuerySubmit value includeSources enableEvaluation useStreaming
        = (if validateQuestion (jsTrim value) then
             (if useStreaming then QueryDispatch.streaming (jsTrim value)
              else QueryDispatch.standard (jsTrim value) includeSources enableEvaluation)
           else QueryDispatch.rejected)
      ∧ ((∀ c ∈ value.toList, isJsWhitespace c = true) →
          jsTrim value = ""
          ∧ handleQuerySubmit value includeSources enableEvaluation useStreaming
              = QueryDispatch.rejected) := by
  intro value incl ev us
  constructor
  · simp only [handleQuerySubmit]
    by_cases hv : validateQuestion (jsTrim value) <;> simp [hv]
  · intro hws
    have hd : List.dropWhile isJsWhitespace value.data = [] :=
      List.dropWhile_eq_nil_iff.mpr hws
    have ht : jsTrim value = "" := by
      simp only [jsTrim, String.toList, hd, List.reverse_nil, List.dropWhile_nil]
    exact ⟨ht, by simp [handleQuerySubmit, ht, validateQuestion]⟩

/-- C10 (witness): a value of three spaces trims to the empty string
and the submission is rejected. -/
theorem c10_submit_trims_question_witness :
    jsTrim "   " = ""
    ∧ handleQuerySubmit "   " true false false = QueryDispatch.rejected := by
  exact (c10_submit_trims_question "   " true false false).2 (by decide)

end RagFrontend
